import Mathlib

/-!
Verification of the terminal session engine of ay-dev-tool-rust.

The definitions below are a shallow embedding of the Rust sources:
  * src/ui/terminal_emulator.rs        (legacy full emulator)
  * src/ui/terminal/emulator.rs        (current emulator)
  * src/ui/terminal/content_extractor.rs
  * src/ssh/sync.rs                    (PTY-backed sync connection/manager)
  * src/ssh/ssh2_client.rs             (ssh2 connection, actor handle, manager)
  * src/ssh/mod.rs                     (PTY background task command handler)

External I/O (PTY reads/writes, channels) is made explicit: every fallible
I/O step takes the outcome of that step as an argument, and functions that
write return the list of byte payloads handed to write_all.  Logging calls
(app_log) are omitted.  Rust panics are modelled by `RustResult.panicked`.
-/

set_option maxHeartbeats 1000000
set_option maxRecDepth 100000

/-! ## Rust string primitives (UTF-8 byte semantics) -/

/-- Unicode code points with the White_Space property, as used by Rust's
`str::trim` (`char::is_whitespace`). -/
def isRustWhitespace (c : Char) : Bool :=
  c.toNat == 32 || c.toNat == 9 || c.toNat == 10 || c.toNat == 11 ||
  c.toNat == 12 || c.toNat == 13 || c.toNat == 133 || c.toNat == 160 ||
  c.toNat == 5760 || (8192 ≤ c.toNat && c.toNat ≤ 8202) ||
  c.toNat == 8232 || c.toNat == 8233 || c.toNat == 8239 ||
  c.toNat == 12288 || c.toNat == 8287

/-- Rust `str::trim`: drop whitespace from both ends. -/
def rustTrim (l : List Char) : List Char :=
  ((l.dropWhile isRustWhitespace).reverse.dropWhile isRustWhitespace).reverse

/-- Number of bytes of the UTF-8 encoding of one scalar value. -/
def utf8Width (c : Char) : Nat :=
  if c.toNat < 128 then 1
  else if c.toNat < 2048 then 2
  else if c.toNat < 65536 then 3
  else 4

/-- Rust `str::len`: length in UTF-8 bytes. -/
def byteLen (l : List Char) : Nat := (l.map utf8Width).sum

/-- Rust byte slicing `s[..k]`: `some` of the sliced characters when byte
index `k` is a character boundary within the string, `none` (a panic)
otherwise. -/
def byteTake : List Char → Nat → Option (List Char)
  | _, 0 => some []
  | [], _ + 1 => none
  | c :: cs, k + 1 =>
    if utf8Width c ≤ k + 1 then
      (byteTake cs (k + 1 - utf8Width c)).map (fun t => c :: t)
    else none

/-- Rust `str::starts_with` on decoded characters. -/
def rustStartsWith (l pat : List Char) : Bool := pat.isPrefixOf l

/-- Rust `str::contains` with a string pattern. -/
def rustContains (l pat : List Char) : Bool :=
  (List.range (l.length + 1)).any (fun i => pat.isPrefixOf (l.drop i))

/-- ASCII lowering; Rust `str::to_lowercase` restricted to the ASCII
letters, which is all the password-detection patterns need. -/
def asciiLower (c : Char) : Char :=
  if 65 ≤ c.toNat && c.toNat ≤ 90 then Char.ofNat (c.toNat + 32) else c

/-- Outcome of a Rust computation that may panic. -/
inductive RustResult (α : Type) where
  | panicked : RustResult α
  | ok : α → RustResult α
deriving DecidableEq

/-- Carriage return character. -/
def crChar : Char := Char.ofNat 13

/-- Line feed character. -/
def lfChar : Char := Char.ofNat 10

/-- The `"\r\n"` suffix appended by the sync PTY write paths. -/
def crlf : List Char := [crChar, lfChar]

/-! ## Colors (vt100::Color, egui::Color32) -/

/-- egui::Color32 restricted to the `from_rgb` constructor used by the
sources. -/
structure Color32 where
  r : Nat
  g : Nat
  b : Nat
deriving DecidableEq

/-- vt100::Color. `idx` carries a `u8`; every theorem about it restricts
the index to 0..=255. -/
inductive VtColor where
  | default : VtColor
  | idx : Nat → VtColor
  | rgb : Nat → Nat → Nat → VtColor
deriving DecidableEq

namespace LegacyTerminalEmulator

/-- src/ui/terminal_emulator.rs, TerminalEmulator::convert_vt100_color:
16-color palette, 6×6×6 cube for 16..=231, 24-step grayscale for
232..=255.  The final `none` is unreachable for u8 indices. -/
def convert_vt100_color (color : VtColor) : Option Color32 :=
  match color with
  | VtColor.default => none
  | VtColor.rgb r g b => some ⟨r, g, b⟩
  | VtColor.idx idx =>
    match idx with
    | 0 => some ⟨0, 0, 0⟩
    | 1 => some ⟨205, 49, 49⟩
    | 2 => some ⟨13, 188, 121⟩
    | 3 => some ⟨229, 229, 16⟩
    | 4 => some ⟨36, 114, 200⟩
    | 5 => some ⟨188, 63, 188⟩
    | 6 => some ⟨17, 168, 205⟩
    | 7 => some ⟨229, 229, 229⟩
    | 8 => some ⟨102, 102, 102⟩
    | 9 => some ⟨241, 76, 76⟩
    | 10 => some ⟨35, 209, 139⟩
    | 11 => some ⟨245, 245, 67⟩
    | 12 => some ⟨59, 142, 234⟩
    | 13 => some ⟨214, 112, 214⟩
    | 14 => some ⟨41, 184, 219⟩
    | 15 => some ⟨255, 255, 255⟩
    | n =>
      if 16 ≤ n ∧ n ≤ 231 then
        let m := n - 16
        some ⟨m / 36 * 51, m % 36 / 6 * 51, m % 6 * 51⟩
      else if 232 ≤ n ∧ n ≤ 255 then
        let gray := (n - 232) * 10 + 8
        some ⟨gray, gray, gray⟩
      else none

end LegacyTerminalEmulator

namespace UiTerminalEmulator

/-- src/ui/terminal/emulator.rs, TerminalEmulator::convert_vt100_color:
only the 16-color palette is mapped; every other index falls to the
catch-all `_ => None`. -/
def convert_vt100_color (color : VtColor) : Option Color32 :=
  match color with
  | VtColor.default => none
  | VtColor.rgb r g b => some ⟨r, g, b⟩
  | VtColor.idx idx =>
    match idx with
    | 0 => some ⟨0, 0, 0⟩
    | 1 => some ⟨128, 0, 0⟩
    | 2 => some ⟨0, 128, 0⟩
    | 3 => some ⟨128, 128, 0⟩
    | 4 => some ⟨0, 0, 128⟩
    | 5 => some ⟨128, 0, 128⟩
    | 6 => some ⟨0, 128, 128⟩
    | 7 => some ⟨220, 220, 220⟩
    | 8 => some ⟨96, 96, 96⟩
    | 9 => some ⟨255, 0, 0⟩
    | 10 => some ⟨0, 255, 0⟩
    | 11 => some ⟨255, 255, 0⟩
    | 12 => some ⟨0, 0, 255⟩
    | 13 => some ⟨255, 0, 255⟩
    | 14 => some ⟨0, 255, 255⟩
    | 15 => some ⟨255, 255, 255⟩
    | _ => none

end UiTerminalEmulator

/-! ## Screen model (vt100::Screen / vt100::Cell) -/

/-- One vt100 cell as observed by the extractors: `contents()`, colors and
style flags. -/
structure Cell where
  contents : List Char
  fgcolor : VtColor
  bgcolor : VtColor
  bold : Bool
  italic : Bool
  underline : Bool
  inverse : Bool
deriving DecidableEq

/-- The vt100 screen state the extractors read: grid size, the partial
cell map (`Screen::cell` returns `None` out of bounds or for empty
positions), and the cursor. -/
structure Screen where
  rows : Nat
  cols : Nat
  cell : Nat → Nat → Option Cell
  cursorRow : Nat
  cursorCol : Nat

/-- src/ui/terminal/types.rs TerminalSegment. -/
structure TerminalSegment where
  text : List Char
  color : Option Color32
  background_color : Option Color32
  bold : Bool
  italic : Bool
  underline : Bool
  inverse : Bool
deriving DecidableEq

/-- TerminalSegment::default(). -/
def TerminalSegment.default : TerminalSegment :=
  ⟨[], none, none, false, false, false, false⟩

/-- src/ui/terminal/types.rs TerminalLine. -/
structure TerminalLine where
  segments : List TerminalSegment
deriving DecidableEq

/-- TerminalLine::is_empty: no segments, or every segment trims to
nothing. -/
def TerminalLine.is_empty (l : TerminalLine) : Bool :=
  l.segments.isEmpty || l.segments.all (fun s => (rustTrim s.text).isEmpty)

/-- TerminalLine::text: concatenation of the segment texts. -/
def TerminalLine.text (l : TerminalLine) : List Char :=
  (l.segments.map TerminalSegment.text).flatten

/-- src/ui/terminal/types.rs TerminalProcessResult. -/
structure TerminalProcessResult where
  lines : List TerminalLine
  prompt_update : Option (List Char)
deriving DecidableEq

namespace UiTerminalEmulator

/-- TerminalEmulator::attributes_changed (terminal/emulator.rs): compares
everything but the text. -/
def attributes_changed (current new : TerminalSegment) : Bool :=
  current.color != new.color ||
  current.background_color != new.background_color ||
  current.bold != new.bold ||
  current.italic != new.italic ||
  current.underline != new.underline ||
  current.inverse != new.inverse

/-- The attribute-only segment built for a cell inside
extract_line_from_screen (terminal/emulator.rs). -/
def cellAttrs (c : Cell) : TerminalSegment :=
  { text := []
    color := convert_vt100_color c.fgcolor
    background_color := convert_vt100_color c.bgcolor
    bold := c.bold
    italic := c.italic
    underline := c.underline
    inverse := c.inverse }

/-- One loop iteration of extract_line_from_screen (terminal/emulator.rs):
on a present cell, flush the current segment when attributes change and
append the cell contents; absent cells are skipped. -/
def lineStep (s : Screen) (row : Nat)
    (acc : List TerminalSegment × TerminalSegment) (col : Nat) :
    List TerminalSegment × TerminalSegment :=
  match s.cell row col with
  | none => acc
  | some cell =>
    let newAttrs := cellAttrs cell
    let acc2 :=
      if attributes_changed acc.2 newAttrs then
        (if acc.2.text.isEmpty then acc.1 else acc.1 ++ [acc.2], newAttrs)
      else acc
    if cell.contents.isEmpty then acc2
    else (acc2.1, { acc2.2 with text := acc2.2.text ++ cell.contents })

/-- TerminalEmulator::extract_line_from_screen (terminal/emulator.rs). -/
def extract_line_from_screen (s : Screen) (row : Nat) : TerminalLine :=
  let acc := (List.range s.cols).foldl (lineStep s row) ([], TerminalSegment.default)
  ⟨if acc.2.text.isEmpty then acc.1 else acc.1 ++ [acc.2]⟩

/-- The `"Last login"` noise pattern. -/
def lastLoginPat : List Char := String.data (r"Last login")

/-- The `"from "` noise pattern. -/
def fromPat : List Char := String.data (r"from ")

/-- TerminalEmulator::detect_prompt (terminal/emulator.rs).  The byte
slice `line_text[..cursor_col]` is guarded only by a byte-length bound,
so it panics when the cursor column is inside a multi-byte character;
that panic is the `RustResult.panicked` outcome. -/
def detect_prompt (s : Screen) : RustResult (Option (List Char)) :=
  let line_text := (extract_line_from_screen s s.cursorRow).text
  if s.cursorCol > 0 ∧ ¬(rustTrim line_text).isEmpty then
    match
      (if s.cursorCol ≤ byteLen line_text then
        (byteTake line_text s.cursorCol).map rustTrim
      else some (rustTrim line_text)) with
    | none => RustResult.panicked
    | some prompt_text =>
      if ¬prompt_text.isEmpty ∧
          ¬rustStartsWith prompt_text lastLoginPat ∧
          ¬rustContains prompt_text fromPat then
        RustResult.ok (some prompt_text)
      else RustResult.ok none
  else RustResult.ok none

/-- The descending scan of extract_screen_content: first row from the
bottom whose line is non-empty, defaulting to 0. -/
def lastContentRowAux (s : Screen) : Nat → Nat
  | 0 => 0
  | n + 1 =>
    if ¬(extract_line_from_screen s n).is_empty then n
    else lastContentRowAux s n

/-- `last_content_row` of extract_screen_content (terminal/emulator.rs). -/
def last_content_row (s : Screen) : Nat := lastContentRowAux s s.rows

/-- TerminalEmulator::extract_screen_content (terminal/emulator.rs):
emit rows 0..=last_content_row, then detect the prompt.  A prompt-
detection panic aborts the whole extraction. -/
def extract_screen_content (s : Screen) : RustResult TerminalProcessResult :=
  let lines := (List.range (last_content_row s + 1)).map (extract_line_from_screen s)
  match detect_prompt s with
  | RustResult.panicked => RustResult.panicked
  | RustResult.ok prompt_update => RustResult.ok ⟨lines, prompt_update⟩

end UiTerminalEmulator

namespace ContentExtractor

/-- ContentExtractor::extract_line_from_screen
(terminal/content_extractor.rs): plain concatenation of the non-empty
cell contents, emitted as a single default-attribute segment. -/
def extract_line_from_screen (s : Screen) (row : Nat) : TerminalLine :=
  let text_content := (List.range s.cols).foldl
    (fun acc col =>
      match s.cell row col with
      | none => acc
      | some cell => if cell.contents.isEmpty then acc else acc ++ cell.contents)
    []
  if text_content.isEmpty then ⟨[]⟩
  else ⟨[{ TerminalSegment.default with text := text_content }]⟩

/-- ContentExtractor::detect_prompt (terminal/content_extractor.rs):
inspects the row ABOVE the cursor (`cursor_row - 1`, requiring
`cursor_row >= 1`) and returns its whole trimmed text unless it is empty
or starts with `"Last login"`. -/
def detect_prompt (s : Screen) : Option (List Char) :=
  if s.cursorRow ≥ 1 then
    let text := rustTrim (extract_line_from_screen s (s.cursorRow - 1)).text
    if ¬text.isEmpty ∧ ¬rustStartsWith text UiTerminalEmulator.lastLoginPat then
      some text
    else none
  else none

end ContentExtractor

/-- The screen-global state the legacy emulator reads besides the cell
grid: the current SGR flags (`screen().bold()` and friends, OR-ed into
every cell's attributes by extract_cell_attributes) and the OSC icon
name and window title used as prompt fallbacks. -/
structure ScreenCtx where
  screen : Screen
  bold : Bool
  italic : Bool
  underline : Bool
  inverse : Bool
  icon_name : List Char
  title : List Char

namespace LegacyTerminalEmulator

/-- TerminalEmulator::attributes_changed (terminal_emulator.rs 601-609):
compares everything but the text. -/
def attributes_changed (current new : TerminalSegment) : Bool :=
  current.color != new.color ||
  current.background_color != new.background_color ||
  current.bold != new.bold ||
  current.italic != new.italic ||
  current.underline != new.underline ||
  current.inverse != new.inverse

/-- TerminalEmulator::extract_cell_attributes (terminal_emulator.rs
536-548): the cell's own flags OR-ed with the screen-global SGR
flags. -/
def extract_cell_attributes (ctx : ScreenCtx) (cell : Cell) :
    TerminalSegment :=
  { text := []
    color := convert_vt100_color cell.fgcolor
    background_color := convert_vt100_color cell.bgcolor
    bold := cell.bold || ctx.bold
    italic := cell.italic || ctx.italic
    underline := cell.underline || ctx.underline
    inverse := cell.inverse || ctx.inverse }

/-- One loop iteration of the legacy extract_line_from_screen
(terminal_emulator.rs 482-519): a present cell flushes the running
segment on attribute change and appends its contents — a tab cell
expands to spaces up to the next multiple-of-8 column; an absent cell
appends one space, flushing first only when the running segment holds
styled text. -/
def lineStep (ctx : ScreenCtx) (row : Nat)
    (acc : List TerminalSegment × TerminalSegment) (col : Nat) :
    List TerminalSegment × TerminalSegment :=
  match ctx.screen.cell row col with
  | some cell =>
    let new_attrs := extract_cell_attributes ctx cell
    let acc2 :=
      if attributes_changed acc.2 new_attrs then
        (if acc.2.text.isEmpty then acc.1 else acc.1 ++ [acc.2], new_attrs)
      else acc
    if cell.contents = [Char.ofNat 9] then
      (acc2.1, { acc2.2 with
        text := acc2.2.text ++ List.replicate (8 - col % 8) (Char.ofNat 32) })
    else
      (acc2.1, { acc2.2 with text := acc2.2.text ++ cell.contents })
  | none =>
    let acc2 :=
      if attributes_changed acc.2 TerminalSegment.default ∧ ¬acc.2.text.isEmpty then
        (acc.1 ++ [acc.2], TerminalSegment.default)
      else acc
    (acc2.1, { acc2.2 with text := acc2.2.text ++ [Char.ofNat 32] })

/-- TerminalEmulator::extract_line_from_screen (terminal_emulator.rs
477-534), including the final full-width blank fallback segment for an
otherwise segment-less row. -/
def extract_line_from_screen (ctx : ScreenCtx) (row : Nat) : TerminalLine :=
  let acc := (List.range ctx.screen.cols).foldl (lineStep ctx row)
    ([], TerminalSegment.default)
  let segments := if acc.2.text.isEmpty then acc.1 else acc.1 ++ [acc.2]
  if segments.isEmpty then
    ⟨[{ TerminalSegment.default with
        text := List.replicate ctx.screen.cols (Char.ofNat 32) }]⟩
  else ⟨segments⟩

/-- The prompt_update computation of
TerminalEmulator::extract_terminal_content (terminal_emulator.rs
383-405): when cursor_row >= 1, inspect the row ABOVE the cursor
(cursor_row - 1) and return its whole trimmed text unless it is empty
or starts with "Last login"; at cursor_row = 0 fall back to the icon
name, then the title. -/
def detect_prompt (ctx : ScreenCtx) : Option (List Char) :=
  if ctx.screen.cursorRow ≥ 1 then
    let text := rustTrim
      (extract_line_from_screen ctx (ctx.screen.cursorRow - 1)).text
    if ¬text.isEmpty ∧ ¬rustStartsWith text UiTerminalEmulator.lastLoginPat then
      some text
    else none
  else if ¬ctx.icon_name.isEmpty then some ctx.icon_name
  else if ¬ctx.title.isEmpty then some ctx.title
  else none

end LegacyTerminalEmulator

/-- C3's claim, stated in its own words: for cursor (r, c) with c > 0,
take the text of row r from column 0 up to but not including column c,
trim it, and return it exactly when it is non-blank and not a noise
pattern (starting with `"Last login"` or containing `"from "`). -/
def claimedPromptDetection (s : Screen) : Option (List Char) :=
  if s.cursorCol > 0 then
    let text := (UiTerminalEmulator.extract_line_from_screen s s.cursorRow).text
    let candidate := rustTrim (text.take s.cursorCol)
    if ¬candidate.isEmpty ∧
        ¬rustStartsWith candidate UiTerminalEmulator.lastLoginPat ∧
        ¬rustContains candidate UiTerminalEmulator.fromPat then
      some candidate
    else none
  else none

/-! ## SSH layer: connections -/

/-- std::io::ErrorKind, restricted to the kinds the sources match on. -/
inductive IoErrorKind where
  | wouldBlock : IoErrorKind
  | timedOut : IoErrorKind
  | brokenPipe : IoErrorKind
  | connectionAborted : IoErrorKind
  | other : IoErrorKind
deriving DecidableEq

/-- A std::io::Error: its kind plus its Display text (used when the error
is formatted into a message). -/
structure IoError where
  kind : IoErrorKind
  msg : List Char
deriving DecidableEq

/-- Outcome of one `read` call on the channel: `ok data` for `Ok(n)` with
`data` the first `n` bytes decoded (empty when `n = 0`), `err` for an
I/O error. -/
inductive ReadEvent where
  | ok : List Char → ReadEvent
  | err : IoError → ReadEvent
deriving DecidableEq

/-- Outcomes of a `write_all` + `flush` pair on the channel; `none` is
success. -/
structure WriteEvents where
  write : Option IoError
  flush : Option IoError
deriving DecidableEq

/-- Both write and flush succeed. -/
def WriteEvents.allOk : WriteEvents := ⟨none, none⟩

/-- crate::ui::AuthType. -/
inductive AuthType where
  | password : AuthType
  | publicKey : AuthType
deriving DecidableEq

/-- crate::ui::ConnectionConfig, restricted to the fields the SSH layer
reads. -/
structure ConnectionConfig where
  host : List Char
  port : Nat
  username : List Char
  auth_type : AuthType
  password : Option (List Char)
  key_file : Option (List Char)
deriving DecidableEq

/-- src/ssh/sync.rs SyncSshConnection (the PTY handles are external; the
bytes written through them are reported by the operations below). -/
structure SyncSshConnection where
  config : ConnectionConfig
  is_connected : Bool
  password_sent : Bool
deriving DecidableEq

instance {ε α : Type} [DecidableEq ε] [DecidableEq α] :
    DecidableEq (Except ε α) := fun x y => by
  cases x with
  | ok a =>
    cases y with
    | ok b =>
      exact match decEq a b with
      | isTrue h => isTrue (by subst h; rfl)
      | isFalse h => isFalse (by intro hh; injection hh; contradiction)
    | error b => exact isFalse (by intro hh; injection hh)
  | error a =>
    cases y with
    | ok b => exact isFalse (by intro hh; injection hh)
    | error b =>
      exact match decEq a b with
      | isTrue h => isTrue (by subst h; rfl)
      | isFalse h => isFalse (by intro hh; injection hh; contradiction)

/-- Result of an operation on a connection of state type σ: the updated
connection, the Rust `Result`, and the byte payloads passed to
`write_all` during the call. -/
structure OpResult (σ : Type) (α : Type) where
  conn : σ
  res : Except (List Char) α
  writes : List (List Char)
deriving DecidableEq

namespace SyncSshConnection

/-- Error text of send_command when the connection is already down. -/
def discErr : List Char := String.data (r"SSH连接已断开")

/-- Prefix of the send_command write-failure message. -/
def sendFailPre : List Char := String.data (r"命令发送失败: ")

/-- Prefix of the send_command flush-failure message. -/
def flushFailPre : List Char := String.data (r"命令flush失败: ")

/-- Prefix of the broken-pipe message returned by read_output. -/
def brokenPipePre : List Char := String.data (r"连接已断开: ")

/-- Prefix of the password write-failure message. -/
def pwSendFailPre : List Char := String.data (r"密码发送失败: ")

/-- Prefix of the password flush-failure message. -/
def pwFlushFailPre : List Char := String.data (r"密码flush失败: ")

/-- SyncSshConnection::send_command (sync.rs 134-164): refuse when not
connected, otherwise write `command ++ "\r\n"`; a write or flush failure
sets `is_connected` to false and returns the error. -/
def send_command (st : SyncSshConnection) (command : List Char)
    (w : WriteEvents) : OpResult SyncSshConnection Unit :=
  if ¬st.is_connected then ⟨st, Except.error discErr, []⟩
  else
    let command_with_newline := command ++ crlf
    match w.write with
    | some e =>
      ⟨{ st with is_connected := false },
        Except.error (sendFailPre ++ e.msg), [command_with_newline]⟩
    | none =>
      match w.flush with
      | some e =>
        ⟨{ st with is_connected := false },
          Except.error (flushFailPre ++ e.msg), [command_with_newline]⟩
      | none => ⟨st, Except.ok (), [command_with_newline]⟩

/-- The password-prompt test of handle_password_prompt (sync.rs 228-232):
a disjunction of `contains` checks plus a lowercase check. -/
def hasPasswordPrompt (data : List Char) : Bool :=
  rustContains data (String.data (r"Password")) ||
  rustContains data (String.data (r"password")) ||
  rustContains data (String.data (r"Password:")) ||
  rustContains data (String.data (r"password:")) ||
  rustContains (data.map asciiLower) (String.data (r"password"))

/-- SyncSshConnection::handle_password_prompt (sync.rs 221-266): when a
password prompt shows up before the password was sent, write the
password followed by `"\r\n"`; write/flush failures are returned as
errors (and do not mark the password as sent). -/
def handle_password_prompt (st : SyncSshConnection) (data : List Char)
    (w : WriteEvents) : OpResult SyncSshConnection Unit :=
  if ¬st.password_sent ∧ st.config.auth_type = AuthType.password then
    match st.config.password with
    | none => ⟨st, Except.ok (), []⟩
    | some password =>
      if hasPasswordPrompt data then
        let payload := password ++ crlf
        match w.write with
        | some e => ⟨st, Except.error (pwSendFailPre ++ e.msg), [payload]⟩
        | none =>
          match w.flush with
          | some e => ⟨st, Except.error (pwFlushFailPre ++ e.msg), [payload]⟩
          | none => ⟨{ st with password_sent := true }, Except.ok (), [payload]⟩
      else ⟨st, Except.ok (), []⟩
  else ⟨st, Except.ok (), []⟩

/-- SyncSshConnection::read_output (sync.rs 166-218).  `Ok(n)` with data
feeds handle_password_prompt and returns the data; `WouldBlock` and the
catch-all arm return empty without touching the state; `BrokenPipe`
flips `is_connected` and returns a non-empty description instead of an
error. -/
def read_output (st : SyncSshConnection) (ev : ReadEvent)
    (w : WriteEvents) : OpResult SyncSshConnection (List Char) :=
  match ev with
  | ReadEvent.ok data =>
    if ¬data.isEmpty then
      let hp := handle_password_prompt st data w
      match hp.res with
      | Except.ok _ => ⟨hp.conn, Except.ok data, hp.writes⟩
      | Except.error e => ⟨hp.conn, Except.error e, hp.writes⟩
    else ⟨st, Except.ok [], []⟩
  | ReadEvent.err e =>
    match e.kind with
    | IoErrorKind.wouldBlock => ⟨st, Except.ok [], []⟩
    | IoErrorKind.brokenPipe =>
      ⟨{ st with is_connected := false },
        Except.ok (brokenPipePre ++ e.msg), []⟩
    | _ => ⟨st, Except.ok [], []⟩

end SyncSshConnection

/-- src/ssh/ssh2_client.rs Ssh2Connection (session/stream handles are
external; `has_channel` is `channel.is_some()`). -/
structure Ssh2Connection where
  is_connected : Bool
  has_channel : Bool
deriving DecidableEq

namespace Ssh2Connection

/-- Error text of send_command when not connected. -/
def notEstablishedErr : List Char := String.data (r"SSH连接未建立")

/-- Error text of send_command when the channel is missing. -/
def noChannelErr : List Char := String.data (r"SSH通道未创建")

/-- Ssh2Connection::send_command (ssh2_client.rs 318-334): write
`command ++ "\n"`, propagating write/flush errors with `?` and WITHOUT
touching `is_connected`. -/
def send_command (st : Ssh2Connection) (command : List Char)
    (w : WriteEvents) : OpResult Ssh2Connection Unit :=
  if ¬st.is_connected then ⟨st, Except.error notEstablishedErr, []⟩
  else if st.has_channel then
    let command_with_newline := command ++ [lfChar]
    match w.write with
    | some e => ⟨st, Except.error e.msg, [command_with_newline]⟩
    | none =>
      match w.flush with
      | some e => ⟨st, Except.error e.msg, [command_with_newline]⟩
      | none => ⟨st, Except.ok (), [command_with_newline]⟩
  else ⟨st, Except.error noChannelErr, []⟩

/-- Ssh2Connection::read_output (ssh2_client.rs 336-380): every outcome
is `Ok`; would-block/timeout return empty, broken-pipe/connection-
aborted flip `is_connected` and return empty, anything else returns
empty. -/
def read_output (st : Ssh2Connection) (ev : ReadEvent) :
    Ssh2Connection × Except (List Char) (List Char) :=
  if ¬st.is_connected then (st, Except.ok [])
  else if st.has_channel then
    match ev with
    | ReadEvent.ok data =>
      if ¬data.isEmpty then (st, Except.ok data) else (st, Except.ok [])
    | ReadEvent.err e =>
      match e.kind with
      | IoErrorKind.wouldBlock | IoErrorKind.timedOut => (st, Except.ok [])
      | IoErrorKind.brokenPipe | IoErrorKind.connectionAborted =>
        ({ st with is_connected := false }, Except.ok [])
      | _ => (st, Except.ok [])
  else (st, Except.ok [])

end Ssh2Connection

/-- src/ssh/mod.rs PtyBackgroundTask::handle_command (262-289): when the
PTY writer exists, write `command ++ "\r\n"` and flush (flush errors
propagate via `?`); the response-channel side effect is omitted. -/
def ptyHandleCommand (hasWriter : Bool) (command : List Char)
    (w : WriteEvents) : Except (List Char) Unit × List (List Char) :=
  if hasWriter then
    let command_with_newline := command ++ crlf
    match w.write with
    | some e =>
      (Except.error ((String.data (r"写入命令失败: ")) ++ e.msg),
        [command_with_newline])
    | none =>
      match w.flush with
      | some e => (Except.error e.msg, [command_with_newline])
      | none => (Except.ok (), [command_with_newline])
  else (Except.error (String.data (r"PTY writer不可用")), [])

/-! ## SSH layer: registries -/

/-- The registries' `HashMap<String, _>`, modelled as an association
list; `insert` replaces, `remove` deletes every binding of the key. -/
def AMap (α : Type) : Type := List (String × α)

namespace AMap

/-- HashMap::get. -/
def get {α : Type} (m : AMap α) (k : String) : Option α :=
  (List.find? (fun p => p.1 == k) m).map (fun p => p.2)

/-- HashMap::remove (also drops stale duplicates). -/
def remove {α : Type} (m : AMap α) (k : String) : AMap α :=
  List.filter (fun p => !(p.1 == k)) m

/-- HashMap::insert. -/
def insert {α : Type} (m : AMap α) (k : String) (v : α) : AMap α :=
  (k, v) :: remove m k

end AMap

/-- The not-found error text of both managers. -/
def notFoundErr (id : String) : List Char :=
  (String.data (r"连接不存在: ")) ++ id.data

namespace SyncSshManager

/-- SyncSshManager::create_connection (sync.rs 304-314).  The outcome of
`SyncSshConnection::create` is the `created` argument: `none` when the
PTY/process setup failed, `some (config, password_already_sent)` when it
succeeded — in which case the stored connection always has
`is_connected = true` (sync.rs 124-131). -/
def create_connection (reg : AMap SyncSshConnection) (id : String)
    (created : Option (ConnectionConfig × Bool)) :
    AMap SyncSshConnection × Except (List Char) Unit :=
  match created with
  | none => (reg, Except.error (String.data (r"启动SSH进程失败")))
  | some (config, password_already_sent) =>
    (AMap.insert reg id ⟨config, true, password_already_sent⟩, Except.ok ())

/-- SyncSshManager::execute_command (sync.rs 316-326). -/
def execute_command (reg : AMap SyncSshConnection) (id : String)
    (command : List Char) (w : WriteEvents) :
    AMap SyncSshConnection × Except (List Char) Unit :=
  match AMap.get reg id with
  | some connection =>
    let out := connection.send_command command w
    (AMap.insert reg id out.conn, out.res)
  | none => (reg, Except.error (notFoundErr id))

/-- SyncSshManager::read_output (sync.rs 328-351). -/
def read_output (reg : AMap SyncSshConnection) (id : String)
    (ev : ReadEvent) (w : WriteEvents) :
    AMap SyncSshConnection × Except (List Char) (List Char) :=
  match AMap.get reg id with
  | some connection =>
    let out := connection.read_output ev w
    (AMap.insert reg id out.conn, out.res)
  | none => (reg, Except.error (notFoundErr id))

/-- SyncSshManager::disconnect (sync.rs 353-361): the handle is removed
from the map immediately (the removed connection's own disconnect only
kills the child process). -/
def disconnect (reg : AMap SyncSshConnection) (id : String) :
    AMap SyncSshConnection :=
  AMap.remove reg id

/-- SyncSshManager::is_connected (sync.rs 363-370). -/
def is_connected (reg : AMap SyncSshConnection) (id : String) : Bool :=
  match AMap.get reg id with
  | some conn => conn.is_connected
  | none => false

end SyncSshManager

/-- ssh2_client.rs SshMessage. -/
inductive SshMessage where
  | sendCommand : List Char → SshMessage
  | readOutputMsg : SshMessage
  | disconnectMsg : SshMessage
  | checkStatus : SshMessage
deriving DecidableEq

/-- ssh2_client.rs SshActorHandle: the two mpsc channels are modelled as
queues; `alive` is whether the actor end of the message channel is still
open. -/
structure SshActorHandle where
  alive : Bool
  msgQueue : List SshMessage
  outQueue : List (List Char)
deriving DecidableEq

namespace SshActorHandle

/-- SshActorHandle::execute_command (ssh2_client.rs 170-176): enqueue
`SendCommand(command)` — exactly the caller's string — and return at
once. -/
def execute_command (h : SshActorHandle) (command : List Char) :
    SshActorHandle × Except (List Char) Unit :=
  if h.alive then
    ({ h with msgQueue := h.msgQueue ++ [SshMessage.sendCommand command] },
      Except.ok ())
  else (h, Except.error (String.data (r"命令发送失败：Actor已关闭")))

/-- SshActorHandle::read_output (ssh2_client.rs 179-187): `try_recv`,
with every failure mapped to `Ok("")`. -/
def read_output (h : SshActorHandle) :
    SshActorHandle × Except (List Char) (List Char) :=
  match h.outQueue with
  | data :: rest => ({ h with outQueue := rest }, Except.ok data)
  | [] => (h, Except.ok [])

end SshActorHandle

namespace Ssh2Manager

/-- Ssh2Manager::create_connection (ssh2_client.rs 590-614): the
`connected` argument is the outcome of `Ssh2Connection::connect`; on
success a fresh actor handle is spawned and stored. -/
def create_connection (reg : AMap SshActorHandle) (id : String)
    (connected : Option Unit) :
    AMap SshActorHandle × Except (List Char) Unit :=
  match connected with
  | none => (reg, Except.error (String.data (r"TCP连接失败")))
  | some _ => (AMap.insert reg id ⟨true, [], []⟩, Except.ok ())

/-- Ssh2Manager::execute_command (ssh2_client.rs 617-624). -/
def execute_command (reg : AMap SshActorHandle) (id : String)
    (command : List Char) :
    AMap SshActorHandle × Except (List Char) Unit :=
  match AMap.get reg id with
  | some actor_handle =>
    let out := actor_handle.execute_command command
    (AMap.insert reg id out.1, out.2)
  | none => (reg, Except.error (notFoundErr id))

/-- Ssh2Manager::read_output (ssh2_client.rs 627-634). -/
def read_output (reg : AMap SshActorHandle) (id : String) :
    AMap SshActorHandle × Except (List Char) (List Char) :=
  match AMap.get reg id with
  | some actor_handle =>
    let out := actor_handle.read_output
    (AMap.insert reg id out.1, out.2)
  | none => (reg, Except.error (notFoundErr id))

/-- Ssh2Manager::is_connected (ssh2_client.rs 637-643): `true` for any
registered handle (`map_or(false, |_| true)`). -/
def is_connected (reg : AMap SshActorHandle) (id : String) : Bool :=
  match AMap.get reg id with
  | some _ => true
  | none => false

/-- Ssh2Manager::disconnect (ssh2_client.rs 646-653): remove the handle
(the Disconnect message sent to the removed actor is dropped with it). -/
def disconnect (reg : AMap SshActorHandle) (id : String) :
    AMap SshActorHandle :=
  AMap.remove reg id

end Ssh2Manager

/-! ## Concrete example inputs used by the theorems below -/

/-- The 'a' cell used by concrete screens below. -/
def cellA : Cell :=
  ⟨[Char.ofNat 97], VtColor.default, VtColor.default, false, false, false, false⟩

/-- A 2×1 screen whose only content is an 'a' in row 0, cursor at home. -/
def screenC2 : Screen :=
  ⟨2, 1, fun r c => if r = 0 ∧ c = 0 then some cellA else none, 0, 0⟩

/-- The single line extracted from `screenC2`. -/
def lineA : TerminalLine :=
  ⟨[⟨[Char.ofNat 97], none, none, false, false, false, false⟩]⟩

/-- A 2×1 screen with no content at all, cursor at home. -/
def screenBlank : Screen := ⟨2, 1, fun _ _ => none, 0, 0⟩

/-- A plain-text cell with default attributes. -/
def mkCell (t : List Char) : Cell :=
  ⟨t, VtColor.default, VtColor.default, false, false, false, false⟩

/-- A 2×2 screen: row 0 reads "hello", row 1 reads "$ ", cursor at
(1, 2) — right after the prompt on row 1. -/
def screenC3 : Screen :=
  ⟨2, 2, fun r c =>
    if r = 0 ∧ c = 0 then some (mkCell (String.data (r"hello")))
    else if r = 1 ∧ c = 0 then some (mkCell [Char.ofNat 36])
    else if r = 1 ∧ c = 1 then some (mkCell [Char.ofNat 32])
    else none, 1, 2⟩

/-- A 1×2 screen whose row 0 holds the single two-byte character 'é',
with the cursor at column 1 — the state vt100 reaches after printing
"é". -/
def screenC9 : Screen :=
  ⟨1, 2, fun r c =>
    if r = 0 ∧ c = 0 then some (mkCell [Char.ofNat 233]) else none, 0, 1⟩

/-- The legacy-emulator context over `screenC3`: no global SGR flags,
no icon name, no title. -/
def ctxC3 : ScreenCtx := ⟨screenC3, false, false, false, false, [], []⟩

/-- A public-key config (no password handling on the read path). -/
def cfgPk : ConnectionConfig :=
  ⟨String.data (r"example.com"), 22, String.data (r"bob"),
    AuthType.publicKey, none, none⟩

/-- A live sync connection. -/
def connUp : SyncSshConnection := ⟨cfgPk, true, false⟩

/-- A broken-pipe I/O error whose Display text is "x". -/
def bpErr : IoError := ⟨IoErrorKind.brokenPipe, [Char.ofNat 120]⟩

/-- A live ssh2 connection with its channel. -/
def ssh2Up : Ssh2Connection := ⟨true, true⟩

/-- A generic I/O error. -/
def otherErr : IoError := ⟨IoErrorKind.other, [Char.ofNat 101]⟩

/-- Write fails, flush untried. -/
def wFail : WriteEvents := ⟨some otherErr, none⟩

/-- The command string "ls". -/
def lsCmd : List Char := String.data (r"ls")

/-- An actor handle as freshly spawned. -/
def handle0 : SshActorHandle := ⟨true, [], []⟩

/-- The session id "s1". -/
def sid : String := (r"s1")

/-- A one-session ssh2 registry. -/
def reg1 : AMap SshActorHandle := [(sid, handle0)]

/-- The empty sync registry. -/
def emptySyncReg : AMap SyncSshConnection := []

/-- The empty ssh2 registry. -/
def emptySsh2Reg : AMap SshActorHandle := []


/-! ## Claim C1: color conversion -/

/-- C1, as stated, is false: the claim covers "the color conversion",
but the conversion of src/ui/terminal/emulator.rs sends every indexed
color from 16 on to `None` instead of the 6×6×6 cube value the claim
demands (here at index 16, whose cube value is RGB (0,0,0)). -/
theorem claim_c1_counterexample :
    ¬(UiTerminalEmulator.convert_vt100_color (VtColor.idx 16) =
      some ⟨51 * ((16 - 16) / 36), 51 * (((16 - 16) / 6) % 6),
        51 * ((16 - 16) % 6)⟩) := by
  decide

/-- C1 (amended): the conversion of the legacy emulator
(src/ui/terminal_emulator.rs) satisfies the claim — cube formula on
16..=231, strictly increasing grayscale on 232..=255, Default to None —
while the conversion of src/ui/terminal/emulator.rs maps Default to
None as claimed but maps every indexed color ≥ 16 to None. -/
theorem claim_c1 :
    (∀ n : Nat, 16 ≤ n → n ≤ 231 →
      LegacyTerminalEmulator.convert_vt100_color (VtColor.idx n) =
        some ⟨51 * ((n - 16) / 36), 51 * (((n - 16) / 6) % 6),
          51 * ((n - 16) % 6)⟩) ∧
    (∀ i j : Nat, 232 ≤ i → i < j → j ≤ 255 →
      LegacyTerminalEmulator.convert_vt100_color (VtColor.idx i) =
        some ⟨(i - 232) * 10 + 8, (i - 232) * 10 + 8, (i - 232) * 10 + 8⟩ ∧
      LegacyTerminalEmulator.convert_vt100_color (VtColor.idx j) =
        some ⟨(j - 232) * 10 + 8, (j - 232) * 10 + 8, (j - 232) * 10 + 8⟩ ∧
      (i - 232) * 10 + 8 < (j - 232) * 10 + 8) ∧
    LegacyTerminalEmulator.convert_vt100_color VtColor.default = none ∧
    UiTerminalEmulator.convert_vt100_color VtColor.default = none ∧
    (∀ n : Nat, 16 ≤ n → n ≤ 255 →
      UiTerminalEmulator.convert_vt100_color (VtColor.idx n) = none) := by
  have cube : ∀ n : Nat, n < 232 → 16 ≤ n →
      LegacyTerminalEmulator.convert_vt100_color (VtColor.idx n) =
        some ⟨51 * ((n - 16) / 36), 51 * (((n - 16) / 6) % 6),
          51 * ((n - 16) % 6)⟩ := by decide
  have gray : ∀ n : Nat, n < 256 → 232 ≤ n →
      LegacyTerminalEmulator.convert_vt100_color (VtColor.idx n) =
        some ⟨(n - 232) * 10 + 8, (n - 232) * 10 + 8, (n - 232) * 10 + 8⟩ := by
    decide
  have simple : ∀ n : Nat, n < 256 → 16 ≤ n →
      UiTerminalEmulator.convert_vt100_color (VtColor.idx n) = none := by decide
  refine ⟨fun n h16 h231 => cube n (by omega) h16,
    fun i j hi hij hj => ⟨gray i (by omega) hi, gray j (by omega) (by omega),
      by omega⟩,
    rfl, rfl, fun n h16 h255 => simple n (by omega) h16⟩

/-- Witness for C1 at concrete indices: cube index 100, grayscale pair
(240, 241), and simplified-emulator index 200. -/
theorem claim_c1_witness :
    LegacyTerminalEmulator.convert_vt100_color (VtColor.idx 100) =
      some ⟨51 * ((100 - 16) / 36), 51 * (((100 - 16) / 6) % 6),
        51 * ((100 - 16) % 6)⟩ ∧
    LegacyTerminalEmulator.convert_vt100_color (VtColor.idx 240) =
      some ⟨88, 88, 88⟩ ∧
    LegacyTerminalEmulator.convert_vt100_color (VtColor.idx 241) =
      some ⟨98, 98, 98⟩ ∧
    UiTerminalEmulator.convert_vt100_color (VtColor.idx 200) = none := by
  have h1 := claim_c1.1 100 (by decide) (by decide)
  have h2 := claim_c1.2.1 240 241 (by decide) (by decide) (by decide)
  have h3 := claim_c1.2.2.2.2 200 (by decide) (by decide)
  exact ⟨h1, h2.1, h2.2.1, h3⟩

/-! ## Claims C2 and C10: frame extraction -/

/-- The bottom-up scan of extract_screen_content finds the greatest
non-empty row when one exists below the scan bound. -/
theorem lastContentRowAux_greatest (s : Screen) :
    ∀ n r0, r0 < n →
      (UiTerminalEmulator.extract_line_from_screen s r0).is_empty = false →
      (UiTerminalEmulator.extract_line_from_screen s
        (UiTerminalEmulator.lastContentRowAux s n)).is_empty = false ∧
      ∀ r, r < n →
        (UiTerminalEmulator.extract_line_from_screen s r).is_empty = false →
        r ≤ UiTerminalEmulator.lastContentRowAux s n := by
  intro n
  induction n with
  | zero => intro r0 h; omega
  | succ n ih =>
    intro r0 hr0 hne
    by_cases hlast : (UiTerminalEmulator.extract_line_from_screen s n).is_empty = true
    · have hr0n : r0 ≠ n := by
        intro h
        rw [h] at hne
        rw [hlast] at hne
        cases hne
      have step : UiTerminalEmulator.lastContentRowAux s (n + 1) =
          UiTerminalEmulator.lastContentRowAux s n := by
        simp [UiTerminalEmulator.lastContentRowAux, hlast]
      have ⟨ha, hb⟩ := ih r0 (by omega) hne
      rw [step]
      refine ⟨ha, fun r hr hrne => ?_⟩
      have hrn : r ≠ n := by
        intro h
        rw [h, hlast] at hrne
        cases hrne
      exact hb r (by omega) hrne
    · have hfalse : (UiTerminalEmulator.extract_line_from_screen s n).is_empty = false := by
        cases hv : (UiTerminalEmulator.extract_line_from_screen s n).is_empty
        · rfl
        · exact absurd hv hlast
      have step : UiTerminalEmulator.lastContentRowAux s (n + 1) = n := by
        simp [UiTerminalEmulator.lastContentRowAux, hlast]
      rw [step]
      exact ⟨hfalse, fun r hr _ => by omega⟩

/-- C2: whenever some row of the screen is non-empty and processing
produces a frame, that frame is exactly the rows 0 up to and including
the last non-empty row, in row order; all later rows are omitted. -/
theorem claim_c2 (s : Screen) (res : TerminalProcessResult) (r0 : Nat)
    (hr0 : r0 < s.rows)
    (hne : (UiTerminalEmulator.extract_line_from_screen s r0).is_empty = false)
    (hok : UiTerminalEmulator.extract_screen_content s = RustResult.ok res) :
    (UiTerminalEmulator.extract_line_from_screen s
      (UiTerminalEmulator.last_content_row s)).is_empty = false ∧
    (∀ r, r < s.rows →
      (UiTerminalEmulator.extract_line_from_screen s r).is_empty = false →
      r ≤ UiTerminalEmulator.last_content_row s) ∧
    res.lines = (List.range (UiTerminalEmulator.last_content_row s + 1)).map
      (UiTerminalEmulator.extract_line_from_screen s) := by
  have hspec := lastContentRowAux_greatest s s.rows r0 hr0 hne
  refine ⟨hspec.1, hspec.2, ?_⟩
  unfold UiTerminalEmulator.extract_screen_content at hok
  cases hd : UiTerminalEmulator.detect_prompt s with
  | panicked => rw [hd] at hok; cases hok
  | ok p =>
    rw [hd] at hok
    cases hok
    rfl

/-- Witness for C2 on `screenC2`. -/
theorem claim_c2_witness :
    (UiTerminalEmulator.extract_line_from_screen screenC2
      (UiTerminalEmulator.last_content_row screenC2)).is_empty = false ∧
    (∀ r, r < screenC2.rows →
      (UiTerminalEmulator.extract_line_from_screen screenC2 r).is_empty = false →
      r ≤ UiTerminalEmulator.last_content_row screenC2) ∧
    (TerminalProcessResult.mk [lineA] none).lines =
      (List.range (UiTerminalEmulator.last_content_row screenC2 + 1)).map
        (UiTerminalEmulator.extract_line_from_screen screenC2) :=
  claim_c2 screenC2 ⟨[lineA], none⟩ 0 (by decide) (by decide) (by decide)

/-- C10: whenever processing produces a frame, the frame has at least
one line — the row-0 line is always emitted, even on an all-blank
screen. -/
theorem claim_c10 (s : Screen) (res : TerminalProcessResult)
    (hok : UiTerminalEmulator.extract_screen_content s = RustResult.ok res) :
    res.lines ≠ [] := by
  unfold UiTerminalEmulator.extract_screen_content at hok
  cases hd : UiTerminalEmulator.detect_prompt s with
  | panicked => rw [hd] at hok; cases hok
  | ok p =>
    rw [hd] at hok
    cases hok
    intro h
    have hlen := congrArg List.length h
    rw [List.length_map, List.length_range] at hlen
    simp at hlen

/-- Witness for C10 on the all-blank screen: the emitted frame still
holds the (empty) row-0 line. -/
theorem claim_c10_witness : (TerminalProcessResult.mk [⟨[]⟩] none).lines ≠ [] :=
  claim_c10 screenBlank ⟨[⟨[]⟩], none⟩ (by decide)

/-! ## Claims C3 and C9: prompt detection -/

/-- If everything surviving dropWhile satisfies the predicate, everything
did. -/
theorem all_of_dropWhile_all {p : Char → Bool} {l : List Char}
    (h : ∀ x ∈ l.dropWhile p, p x = true) : ∀ x ∈ l, p x = true := by
  intro x hx
  rw [← List.takeWhile_append_dropWhile (p := p) (l := l)] at hx
  rcases List.mem_append.mp hx with h1 | h2
  · exact List.mem_takeWhile_imp h1
  · exact h x h2

/-- A string trims to nothing exactly when it is all whitespace. -/
theorem rustTrim_eq_nil_iff {l : List Char} :
    rustTrim l = [] ↔ ∀ c ∈ l, isRustWhitespace c = true := by
  unfold rustTrim
  rw [List.reverse_eq_nil_iff, List.dropWhile_eq_nil_iff]
  constructor
  · intro h
    exact all_of_dropWhile_all (fun x hx => h x (List.mem_reverse.mpr hx))
  · intro h c hc
    exact h c (List.dropWhile_sublist _ |>.subset (List.mem_reverse.mp hc))

/-- Prefixes of all-whitespace strings trim to nothing. -/
theorem rustTrim_take_eq_nil {l : List Char} (h : rustTrim l = [])
    (n : Nat) : rustTrim (l.take n) = [] := by
  rw [rustTrim_eq_nil_iff] at h ⊢
  exact fun c hc => h c (List.take_subset n l hc)

/-- ASCII characters occupy one UTF-8 byte. -/
theorem utf8Width_ascii {c : Char} (h : c.toNat < 128) : utf8Width c = 1 := by
  unfold utf8Width
  rw [if_pos h]

/-- On ASCII strings the byte length is the character count. -/
theorem byteLen_ascii {l : List Char} (h : ∀ c ∈ l, c.toNat < 128) :
    byteLen l = l.length := by
  induction l with
  | nil => rfl
  | cons c cs ih =>
    have hc := utf8Width_ascii (h c (List.mem_cons_self c cs))
    have ihc := ih (fun x hx => h x (List.mem_cons_of_mem c hx))
    simp only [byteLen, List.map_cons, List.sum_cons, List.length_cons] at *
    omega

/-- On ASCII strings the byte slice `s[..k]` succeeds and is the
character-level take, for every in-bounds k. -/
theorem byteTake_ascii {l : List Char} (h : ∀ c ∈ l, c.toNat < 128) :
    ∀ k, k ≤ l.length → byteTake l k = some (l.take k) := by
  induction l with
  | nil =>
    intro k hk
    have : k = 0 := by simpa using hk
    subst this
    rfl
  | cons c cs ih =>
    intro k hk
    cases k with
    | zero => rfl
    | succ k =>
      have hc := utf8Width_ascii (h c (List.mem_cons_self c cs))
      have hkk : k ≤ cs.length := by
        simp only [List.length_cons] at hk
        omega
      simp only [byteTake, hc]
      rw [if_pos (by omega)]
      have hstep : k + 1 - 1 = k := by omega
      rw [hstep, ih (fun x hx => h x (List.mem_cons_of_mem c hx)) k hkk]
      rfl

/-- C3 (amended): for the current emulator (src/ui/terminal/emulator.rs)
on rows whose text is ASCII, detect_prompt inspects the cursor's row,
takes the prefix before the cursor column, trims it, and returns it
exactly when it is non-blank and not noise (starting with "Last login"
or containing "from "); the ContentExtractor and the legacy emulator's
extract_terminal_content instead inspect the row ABOVE the cursor
(cursor_row - 1, requiring cursor_row >= 1) and return that row's whole
trimmed text exactly when it is non-empty and does not start with
"Last login". -/
theorem claim_c3 :
    (∀ s : Screen,
      (∀ c ∈ (UiTerminalEmulator.extract_line_from_screen s s.cursorRow).text,
        c.toNat < 128) →
      UiTerminalEmulator.detect_prompt s =
        RustResult.ok (claimedPromptDetection s)) ∧
    (∀ s : Screen, s.cursorRow ≥ 1 →
      ContentExtractor.detect_prompt s =
        (let t := rustTrim
          (ContentExtractor.extract_line_from_screen s (s.cursorRow - 1)).text
         if ¬t.isEmpty ∧ ¬rustStartsWith t UiTerminalEmulator.lastLoginPat then
           some t
         else none)) ∧
    (∀ ctx : ScreenCtx, ctx.screen.cursorRow ≥ 1 →
      LegacyTerminalEmulator.detect_prompt ctx =
        (let t := rustTrim
          (LegacyTerminalEmulator.extract_line_from_screen ctx
            (ctx.screen.cursorRow - 1)).text
         if ¬t.isEmpty ∧ ¬rustStartsWith t UiTerminalEmulator.lastLoginPat then
           some t
         else none)) := by
  refine ⟨?_, ?_, ?_⟩
  case refine_2 =>
    intro s h
    unfold ContentExtractor.detect_prompt
    rw [if_pos h]
  case refine_3 =>
    intro ctx h
    unfold LegacyTerminalEmulator.detect_prompt
    rw [if_pos h]
  intro s hascii
  unfold UiTerminalEmulator.detect_prompt claimedPromptDetection
  by_cases hc : s.cursorCol > 0
  · by_cases htrim :
        rustTrim (UiTerminalEmulator.extract_line_from_screen s s.cursorRow).text = []
    · have hcand := rustTrim_take_eq_nil htrim s.cursorCol
      simp [hc, htrim, hcand]
    · have hbl := byteLen_ascii hascii
      by_cases hle : s.cursorCol ≤
          (UiTerminalEmulator.extract_line_from_screen s s.cursorRow).text.length
      · have hbt := byteTake_ascii hascii s.cursorCol hle
        simp [hc, htrim, hbl, hle, hbt]
        split
        next => rfl
        next => rfl
      · have htake :
            (UiTerminalEmulator.extract_line_from_screen s s.cursorRow).text.take
              s.cursorCol =
            (UiTerminalEmulator.extract_line_from_screen s s.cursorRow).text :=
          List.take_of_length_le (by omega)
        simp [hc, htrim, hbl, hle, htake]
        split
        next => rfl
        next => rfl
  · simp [hc]

/-- C3, as stated, is false for two of the prompt detectors the claim
covers: on `screenC3` the claim demands the trimmed prefix "$" of the
cursor's row 1, but both ContentExtractor::detect_prompt
(terminal/content_extractor.rs) and the legacy emulator's
extract_terminal_content (terminal_emulator.rs) inspect row 0 (the row
above the cursor) and return its whole trimmed text "hello". -/
theorem claim_c3_counterexample :
    ContentExtractor.detect_prompt screenC3 = some (String.data (r"hello")) ∧
    LegacyTerminalEmulator.detect_prompt ctxC3 = some (String.data (r"hello")) ∧
    claimedPromptDetection screenC3 = some [Char.ofNat 36] ∧
    ¬ContentExtractor.detect_prompt screenC3 = claimedPromptDetection screenC3 ∧
    ¬LegacyTerminalEmulator.detect_prompt ctxC3 =
      claimedPromptDetection screenC3 := by
  decide

/-- Witness for C3 on `screenC3` (whose cursor row "$ " is ASCII, and
whose cursor sits on row 1) and on the legacy context over it. -/
theorem claim_c3_witness :
    UiTerminalEmulator.detect_prompt screenC3 =
      RustResult.ok (claimedPromptDetection screenC3) ∧
    ContentExtractor.detect_prompt screenC3 =
      (let t := rustTrim
        (ContentExtractor.extract_line_from_screen screenC3
          (screenC3.cursorRow - 1)).text
       if ¬t.isEmpty ∧ ¬rustStartsWith t UiTerminalEmulator.lastLoginPat then
         some t
       else none) ∧
    LegacyTerminalEmulator.detect_prompt ctxC3 =
      (let t := rustTrim
        (LegacyTerminalEmulator.extract_line_from_screen ctxC3
          (ctxC3.screen.cursorRow - 1)).text
       if ¬t.isEmpty ∧ ¬rustStartsWith t UiTerminalEmulator.lastLoginPat then
         some t
       else none) :=
  ⟨claim_c3.1 screenC3 (by decide),
   claim_c3.2.1 screenC3 (by decide),
   claim_c3.2.2 ctxC3 (by decide)⟩

/-- C9 is a code bug: on `screenC9` the guard `cursor_col <=
line_text.len()` passes (1 ≤ 2 bytes), but byte index 1 falls inside the
two-byte encoding of 'é', so `line_text[..1]` panics instead of slicing
on a character boundary. -/
theorem claim_c9 :
    UiTerminalEmulator.detect_prompt screenC9 = RustResult.panicked := by
  decide

/-! ## Claims C4-C8: SSH connections and registries -/

/-- C4, as stated, is false: on a broken-pipe read the sync connection
(sync.rs) does flip the liveness flag, but returns the non-empty
message "连接已断开: ..." rather than empty output. -/
theorem claim_c4_counterexample :
    ¬((SyncSshConnection.read_output connUp (ReadEvent.err bpErr)
        WriteEvents.allOk).conn.is_connected = false ∧
      (SyncSshConnection.read_output connUp (ReadEvent.err bpErr)
        WriteEvents.allOk).res = Except.ok []) := by
  decide

/-- C4 (amended): would-block and timeout reads return Ok with empty
output and an unchanged connection in both connections (the sync
connection's catch-all arm handles TimedOut); broken pipe flips the
liveness flag in both connections, with the ssh2 connection returning
empty output and the sync connection returning a non-empty
"连接已断开" message; and no read error ever makes either read_output
return an Err. -/
theorem claim_c4 :
    (∀ (st : SyncSshConnection) (e : IoError) (w : WriteEvents),
      e.kind = IoErrorKind.wouldBlock ∨ e.kind = IoErrorKind.timedOut →
      SyncSshConnection.read_output st (ReadEvent.err e) w =
        ⟨st, Except.ok [], []⟩) ∧
    (∀ (st : Ssh2Connection) (e : IoError),
      e.kind = IoErrorKind.wouldBlock ∨ e.kind = IoErrorKind.timedOut →
      Ssh2Connection.read_output st (ReadEvent.err e) = (st, Except.ok [])) ∧
    (∀ (st : SyncSshConnection) (e : IoError) (w : WriteEvents),
      e.kind = IoErrorKind.brokenPipe →
      SyncSshConnection.read_output st (ReadEvent.err e) w =
        ⟨{ st with is_connected := false },
          Except.ok (SyncSshConnection.brokenPipePre ++ e.msg), []⟩ ∧
      SyncSshConnection.brokenPipePre ++ e.msg ≠ []) ∧
    (∀ (st : Ssh2Connection) (e : IoError),
      st.is_connected = true → st.has_channel = true →
      e.kind = IoErrorKind.brokenPipe ∨ e.kind = IoErrorKind.connectionAborted →
      Ssh2Connection.read_output st (ReadEvent.err e) =
        ({ st with is_connected := false }, Except.ok [])) ∧
    (∀ (st : SyncSshConnection) (e : IoError) (w : WriteEvents),
      ∃ out, (SyncSshConnection.read_output st (ReadEvent.err e) w).res =
        Except.ok out) ∧
    (∀ (st : Ssh2Connection) (ev : ReadEvent),
      ∃ out, (Ssh2Connection.read_output st ev).2 = Except.ok out) := by
  refine ⟨?_, ?_, ?_, ?_, ?_, ?_⟩
  · intro st e w hk
    obtain ⟨k, m⟩ := e
    rcases hk with hk | hk <;> cases hk <;> rfl
  · intro st e hk
    obtain ⟨k, m⟩ := e
    rcases hk with hk | hk <;> cases hk <;>
      simp [Ssh2Connection.read_output]
  · intro st e w hk
    obtain ⟨k, m⟩ := e
    cases hk
    exact ⟨rfl, by simp [SyncSshConnection.brokenPipePre]⟩
  · intro st e h1 h2 hk
    obtain ⟨k, m⟩ := e
    rcases hk with hk | hk <;> cases hk <;>
      simp [Ssh2Connection.read_output, h1, h2]
  · intro st e w
    obtain ⟨k, m⟩ := e
    cases k <;> exact ⟨_, rfl⟩
  · intro st ev
    obtain ⟨ic, hch⟩ := st
    cases ic <;> cases hch
    · exact ⟨[], rfl⟩
    · exact ⟨[], rfl⟩
    · exact ⟨[], rfl⟩
    · cases ev with
      | ok data =>
        cases data with
        | nil => exact ⟨[], rfl⟩
        | cons a l => exact ⟨a :: l, rfl⟩
      | err e =>
        obtain ⟨k, m⟩ := e
        cases k <;> exact ⟨[], rfl⟩

/-- Witness for C4: would-block, timed-out and broken-pipe reads on the
live sync connection, and a broken-pipe read on the live ssh2
connection. -/
theorem claim_c4_witness :
    SyncSshConnection.read_output connUp
      (ReadEvent.err ⟨IoErrorKind.wouldBlock, []⟩) WriteEvents.allOk =
      ⟨connUp, Except.ok [], []⟩ ∧
    SyncSshConnection.read_output connUp
      (ReadEvent.err ⟨IoErrorKind.timedOut, []⟩) WriteEvents.allOk =
      ⟨connUp, Except.ok [], []⟩ ∧
    SyncSshConnection.read_output connUp (ReadEvent.err bpErr)
      WriteEvents.allOk =
      ⟨{ connUp with is_connected := false },
        Except.ok (SyncSshConnection.brokenPipePre ++ bpErr.msg), []⟩ ∧
    Ssh2Connection.read_output ssh2Up
      (ReadEvent.err ⟨IoErrorKind.brokenPipe, []⟩) =
      ({ ssh2Up with is_connected := false }, Except.ok []) :=
  ⟨claim_c4.1 connUp ⟨IoErrorKind.wouldBlock, []⟩ WriteEvents.allOk (Or.inl rfl),
   claim_c4.1 connUp ⟨IoErrorKind.timedOut, []⟩ WriteEvents.allOk (Or.inr rfl),
   (claim_c4.2.2.1 connUp bpErr WriteEvents.allOk rfl).1,
   claim_c4.2.2.2.1 ssh2Up ⟨IoErrorKind.brokenPipe, []⟩ rfl rfl (Or.inl rfl)⟩

/-- C5, as stated, is false: a failing write on the ssh2 connection
(ssh2_client.rs send_command) propagates the error with `?` but leaves
`is_connected` true. -/
theorem claim_c5_counterexample :
    ¬((Ssh2Connection.send_command ssh2Up lsCmd wFail).conn.is_connected =
      false) := by
  decide

/-- C5 (amended): on a write or flush failure the sync connection flips
its liveness flag to false and returns the error, while the ssh2
connection returns the error with its flag unchanged; neither retries —
each call hands the payload to write_all at most once. -/
theorem claim_c5 :
    (∀ (st : SyncSshConnection) (cmd : List Char) (e : IoError),
      st.is_connected = true →
      SyncSshConnection.send_command st cmd ⟨some e, none⟩ =
        ⟨{ st with is_connected := false },
          Except.error (SyncSshConnection.sendFailPre ++ e.msg),
          [cmd ++ crlf]⟩) ∧
    (∀ (st : SyncSshConnection) (cmd : List Char) (e : IoError),
      st.is_connected = true →
      SyncSshConnection.send_command st cmd ⟨none, some e⟩ =
        ⟨{ st with is_connected := false },
          Except.error (SyncSshConnection.flushFailPre ++ e.msg),
          [cmd ++ crlf]⟩) ∧
    (∀ (st : Ssh2Connection) (cmd : List Char) (e : IoError),
      st.is_connected = true → st.has_channel = true →
      Ssh2Connection.send_command st cmd ⟨some e, none⟩ =
        ⟨st, Except.error e.msg, [cmd ++ [lfChar]]⟩) ∧
    (∀ (st : Ssh2Connection) (cmd : List Char) (e : IoError),
      st.is_connected = true → st.has_channel = true →
      Ssh2Connection.send_command st cmd ⟨none, some e⟩ =
        ⟨st, Except.error e.msg, [cmd ++ [lfChar]]⟩) ∧
    (∀ (st : SyncSshConnection) (cmd : List Char) (w : WriteEvents),
      (SyncSshConnection.send_command st cmd w).writes.length ≤ 1) ∧
    (∀ (st : Ssh2Connection) (cmd : List Char) (w : WriteEvents),
      (Ssh2Connection.send_command st cmd w).writes.length ≤ 1) := by
  refine ⟨?_, ?_, ?_, ?_, ?_, ?_⟩
  · intro st cmd e h
    simp [SyncSshConnection.send_command, h]
  · intro st cmd e h
    simp [SyncSshConnection.send_command, h]
  · intro st cmd e h1 h2
    simp [Ssh2Connection.send_command, h1, h2]
  · intro st cmd e h1 h2
    simp [Ssh2Connection.send_command, h1, h2]
  · intro st cmd w
    obtain ⟨cfg, ic, ps⟩ := st
    obtain ⟨wo, fo⟩ := w
    cases ic <;> cases wo <;> cases fo <;>
      simp [SyncSshConnection.send_command]
  · intro st cmd w
    obtain ⟨ic, hc⟩ := st
    obtain ⟨wo, fo⟩ := w
    cases ic <;> cases hc <;> cases wo <;> cases fo <;>
      simp [Ssh2Connection.send_command]

/-- Witness for C5: failing write on the live sync connection, failing
write on the live ssh2 connection. -/
theorem claim_c5_witness :
    SyncSshConnection.send_command connUp lsCmd ⟨some otherErr, none⟩ =
      ⟨{ connUp with is_connected := false },
        Except.error (SyncSshConnection.sendFailPre ++ otherErr.msg),
        [lsCmd ++ crlf]⟩ ∧
    Ssh2Connection.send_command ssh2Up lsCmd ⟨some otherErr, none⟩ =
      ⟨ssh2Up, Except.error otherErr.msg, [lsCmd ++ [lfChar]]⟩ :=
  ⟨claim_c5.1 connUp lsCmd otherErr rfl,
   claim_c5.2.2.1 ssh2Up lsCmd otherErr rfl rfl⟩

/-- C6, as stated, is false: sending "ls" through the sync connection
writes the payload "ls\r\n" to the channel, not the caller's exact
bytes "ls". -/
theorem claim_c6_counterexample :
    ¬((SyncSshConnection.send_command connUp lsCmd WriteEvents.allOk).writes =
      [lsCmd]) := by
  decide

/-- Lookup after insert finds the inserted value. -/
theorem amap_get_insert {α : Type} (m : AMap α) (k : String) (v : α) :
    AMap.get (AMap.insert m k v) k = some v := by
  unfold AMap.get AMap.insert
  rw [List.find?_cons_of_pos]
  · rfl
  · simp

/-- Lookup after remove finds nothing. -/
theorem amap_get_remove {α : Type} (m : AMap α) (k : String) :
    AMap.get (AMap.remove m k) k = none := by
  unfold AMap.get AMap.remove
  have h : List.find? (fun p => p.1 == k)
      (List.filter (fun p => !(p.1 == k)) m) = none := by
    rw [List.find?_eq_none]
    intro x hx
    have hf := List.of_mem_filter hx
    simp only [Bool.not_eq_true'] at hf
    simp [hf]
  rw [h]
  rfl

/-- C6 (amended): the managers enqueue exactly the caller's input string
for the actor and return at once, but every connection-level write path
appends a newline before the bytes reach the channel: "\r\n" for the
sync PTY connection and the PTY background task, "\n" for the ssh2
connection. -/
theorem claim_c6 :
    (∀ (reg : AMap SshActorHandle) (id : String) (cmd : List Char)
      (h : SshActorHandle),
      AMap.get reg id = some h → h.alive = true →
      Ssh2Manager.execute_command reg id cmd =
        (AMap.insert reg id
          { h with msgQueue := h.msgQueue ++ [SshMessage.sendCommand cmd] },
          Except.ok ())) ∧
    (∀ (st : SyncSshConnection) (cmd : List Char),
      st.is_connected = true →
      (SyncSshConnection.send_command st cmd WriteEvents.allOk).writes =
        [cmd ++ crlf]) ∧
    (∀ (st : Ssh2Connection) (cmd : List Char),
      st.is_connected = true → st.has_channel = true →
      (Ssh2Connection.send_command st cmd WriteEvents.allOk).writes =
        [cmd ++ [lfChar]]) ∧
    (∀ cmd : List Char,
      ptyHandleCommand true cmd WriteEvents.allOk =
        (Except.ok (), [cmd ++ crlf])) := by
  refine ⟨?_, ?_, ?_, ?_⟩
  · intro reg id cmd h hget halive
    simp [Ssh2Manager.execute_command, hget,
      SshActorHandle.execute_command, halive]
  · intro st cmd h
    simp [SyncSshConnection.send_command, WriteEvents.allOk, h]
  · intro st cmd h1 h2
    simp [Ssh2Connection.send_command, WriteEvents.allOk, h1, h2]
  · intro cmd
    rfl

/-- Witness for C6: enqueue "ls" into the one-session registry, and run
the three write paths on live connections. -/
theorem claim_c6_witness :
    Ssh2Manager.execute_command reg1 sid lsCmd =
      (AMap.insert reg1 sid ⟨true, [SshMessage.sendCommand lsCmd], []⟩,
        Except.ok ()) ∧
    (SyncSshConnection.send_command connUp lsCmd WriteEvents.allOk).writes =
      [lsCmd ++ crlf] ∧
    (Ssh2Connection.send_command ssh2Up lsCmd WriteEvents.allOk).writes =
      [lsCmd ++ [lfChar]] ∧
    ptyHandleCommand true lsCmd WriteEvents.allOk =
      (Except.ok (), [lsCmd ++ crlf]) :=
  ⟨claim_c6.1 reg1 sid lsCmd handle0 (by decide) rfl,
   claim_c6.2.1 connUp lsCmd rfl,
   claim_c6.2.2.1 ssh2Up lsCmd rfl rfl,
   claim_c6.2.2.2 lsCmd⟩

/-- C7: for both managers, a successful create(id, config) is
immediately followed by is_connected(id) = true, and after
disconnect(id) — which removes the handle from the registry at once —
is_connected(id) = false. -/
theorem claim_c7 :
    (∀ (reg : AMap SyncSshConnection) (id : String)
      (cfg : ConnectionConfig) (ps : Bool),
      (SyncSshManager.create_connection reg id (some (cfg, ps))).2 =
        Except.ok () ∧
      SyncSshManager.is_connected
        (SyncSshManager.create_connection reg id (some (cfg, ps))).1 id =
        true ∧
      SyncSshManager.is_connected
        (SyncSshManager.disconnect
          (SyncSshManager.create_connection reg id (some (cfg, ps))).1 id)
        id = false) ∧
    (∀ (reg : AMap SshActorHandle) (id : String),
      (Ssh2Manager.create_connection reg id (some ())).2 = Except.ok () ∧
      Ssh2Manager.is_connected
        (Ssh2Manager.create_connection reg id (some ())).1 id = true ∧
      Ssh2Manager.is_connected
        (Ssh2Manager.disconnect
          (Ssh2Manager.create_connection reg id (some ())).1 id) id =
        false) := by
  constructor
  · intro reg id cfg ps
    refine ⟨rfl, ?_, ?_⟩
    · show SyncSshManager.is_connected
        (AMap.insert reg id ⟨cfg, true, ps⟩) id = true
      unfold SyncSshManager.is_connected
      rw [amap_get_insert]
    · show SyncSshManager.is_connected
        (SyncSshManager.disconnect (AMap.insert reg id ⟨cfg, true, ps⟩) id)
        id = false
      unfold SyncSshManager.is_connected SyncSshManager.disconnect
      rw [amap_get_remove]
  · intro reg id
    refine ⟨rfl, ?_, ?_⟩
    · show Ssh2Manager.is_connected
        (AMap.insert reg id ⟨true, [], []⟩) id = true
      unfold Ssh2Manager.is_connected
      rw [amap_get_insert]
    · show Ssh2Manager.is_connected
        (Ssh2Manager.disconnect (AMap.insert reg id ⟨true, [], []⟩) id)
        id = false
      unfold Ssh2Manager.is_connected Ssh2Manager.disconnect
      rw [amap_get_remove]

/-- C8: execute and read_output on an id absent from the registry return
the "连接不存在" error and leave the registry untouched, in both
managers. -/
theorem claim_c8 (regS : AMap SyncSshConnection) (reg2 : AMap SshActorHandle)
    (id : String) (cmd : List Char) (w : WriteEvents) (ev : ReadEvent)
    (h1 : AMap.get regS id = none) (h2 : AMap.get reg2 id = none) :
    SyncSshManager.execute_command regS id cmd w =
      (regS, Except.error (notFoundErr id)) ∧
    SyncSshManager.read_output regS id ev w =
      (regS, Except.error (notFoundErr id)) ∧
    Ssh2Manager.execute_command reg2 id cmd =
      (reg2, Except.error (notFoundErr id)) ∧
    Ssh2Manager.read_output reg2 id =
      (reg2, Except.error (notFoundErr id)) := by
  refine ⟨?_, ?_, ?_, ?_⟩
  · simp [SyncSshManager.execute_command, h1]
  · simp [SyncSshManager.read_output, h1]
  · simp [Ssh2Manager.execute_command, h2]
  · simp [Ssh2Manager.read_output, h2]

/-- Witness for C8 on empty registries and session id "s1". -/
theorem claim_c8_witness :
    SyncSshManager.execute_command emptySyncReg sid lsCmd WriteEvents.allOk =
      (emptySyncReg, Except.error (notFoundErr sid)) ∧
    SyncSshManager.read_output emptySyncReg sid (ReadEvent.ok [])
      WriteEvents.allOk = (emptySyncReg, Except.error (notFoundErr sid)) ∧
    Ssh2Manager.execute_command emptySsh2Reg sid lsCmd =
      (emptySsh2Reg, Except.error (notFoundErr sid)) ∧
    Ssh2Manager.read_output emptySsh2Reg sid =
      (emptySsh2Reg, Except.error (notFoundErr sid)) :=
  claim_c8 emptySyncReg emptySsh2Reg sid lsCmd WriteEvents.allOk
    (ReadEvent.ok []) rfl rfl
